import Mathlib

/-!
Shallow embedding of the core of the `onemin` / `minautoyt` video pipeline:
the folder-watch ingestion handler (`src/minautoyt/watcher.py`), the durable
approval store (`src/onemin/approval.py`), the pipeline controller
(`src/minautoyt/pipeline.py`), the upload executor
(`src/minautoyt/uploader.py`) and the frame-timestamp computation of the
analyzer (`src/minautoyt/analyzer.py`).

Modelling conventions:
- Python `Optional[str]` becomes `Option String`; Python truthiness of an
  optional string (`if title:`) is `truthyStr` (false for `None` and `""`),
  and of an optional list (`if tags:`) is `truthyList`.
- The JSON store file is an association list `Store` with Python-dict
  semantics (`storeInsert` replaces in place, `storeLookup` finds the entry);
  each store operation additionally reports whether `save_pending_requests`
  was called, i.e. whether the backing file was written.
- Fallible external calls (analysis adapter, metadata adapter, thumbnail
  adapter, the chunked main transfer, the thumbnail-attachment call) are
  `Except String` valued inputs; Python exceptions propagate as `Except.error`.
- `uuid.uuid4()` is a nondeterministic external input: the generated UUID
  string is a parameter, and the code's truncation `[:8]` is `String.take 8`.
- Wall-clock time in the watcher's stability loop is modelled by the finite
  list of size observations available before the timeout elapses (the source
  polls every 2 s with a 300 s timeout, hence at most 150 observations);
  `none` means the file does not exist at that poll.
- The analyzer's timestamp arithmetic is over `ℚ`. For the inputs considered
  here (duration 600, ten frames) the Python binary64 computation
  `600*0.05 = 30.0`, `600*0.95 = 570.0`, `540/9 = 60.0` is exact, so the
  rational model coincides with the float execution.
-/

deriving instance DecidableEq for Except

/-- Python truthiness of an `Optional[str]`: `None` and `""` are falsy. -/
def truthyStr : Option String → Bool
  | none => false
  | some s => !(s = "")

/-- Python truthiness of an `Optional[list]`: `None` and `[]` are falsy. -/
def truthyList : Option (List String) → Bool
  | none => false
  | some l => !l.isEmpty

/-- Python `x or default` for an optional string `x` (truthiness-based). -/
def orElseStr (x : Option String) (d : String) : String :=
  match x with
  | none => d
  | some s => if s = "" then d else s

/-- Last path component (Python `pathlib.PurePath.name` on a normal file
path): the characters after the final slash. -/
def lastComponent (cs : List Char) : List Char :=
  cs.foldl (fun acc c => if c = '/' then [] else acc ++ [c]) []

/-- Index of the last `'.'` in a character list (Python `str.rfind('.')`
restricted to a hit). -/
def lastDotIdx : List Char → Option Nat
  | [] => none
  | c :: cs =>
      match lastDotIdx cs with
      | some i => some (i + 1)
      | none => if c = '.' then some 0 else none

/-- Python `pathlib.PurePath.suffix`: with `i = name.rfind('.')`, the suffix
is `name[i:]` when `0 < i < len(name) - 1` (so dotfiles, trailing dots and
dotless names have no suffix), else `""`. -/
def pySuffix (p : String) : String :=
  let name := lastComponent p.data
  match lastDotIdx name with
  | none => ""
  | some i =>
      if 0 < i ∧ i + 1 < name.length then String.mk (name.drop i) else ""

/-- Python `str.lower()` restricted to ASCII (all strings compared here are
ASCII), mapped character-wise. -/
def strToLower (s : String) : String :=
  String.mk (s.data.map Char.toLower)

/-- The allow-list `VIDEO_EXTENSIONS` of `src/minautoyt/watcher.py`. -/
def VIDEO_EXTENSIONS : List String :=
  [".mp4", ".mov", ".avi", ".mkv", ".webm", ".m4v"]

/-- State of a `VideoHandler`: the extension allow-list and the in-flight
(`_processing`) set of path strings. -/
structure VideoHandler where
  extensions : List String
  processing : List String
deriving DecidableEq, Repr

/-- Constructor `VideoHandler.__init__`: `extensions or VIDEO_EXTENSIONS`
(an empty or absent set falls back to the default allow-list), empty
in-flight set. -/
def mkVideoHandler (extensions : Option (List String)) : VideoHandler :=
  { extensions :=
      match extensions with
      | none => VIDEO_EXTENSIONS
      | some l => if l.isEmpty then VIDEO_EXTENSIONS else l,
    processing := [] }

/-- A watchdog `FileCreatedEvent`: source path and directory flag. -/
structure CreatedEvent where
  src_path : String
  is_directory : Bool
deriving DecidableEq, Repr

/-- The loop body of `VideoHandler._wait_for_file_ready`. The trace lists
the size observations available before the 300 s timeout elapses (`none` if
the file does not exist at that poll); `last` is `last_size`, initially `-1`.
Returns `true` when some observation equals the previous one and is
non-zero; `false` when the file disappears or the observations (i.e. the
timeout window) are exhausted. -/
def wait_for_file_ready : List (Option Nat) → Int → Bool
  | [], _ => false
  | none :: _, _ => false
  | some sz :: rest, last =>
      if (sz : Int) = last ∧ 0 < sz then true
      else wait_for_file_ready rest (sz : Int)

/-- `VideoHandler.on_created`, returning the number of callback invocations
together with the handler state after the event is fully handled. Mirrors
the source: directory events are dropped; then the lowercased suffix is
checked against the allow-list; then the in-flight set is consulted; then
`_wait_for_file_ready` is called with its Boolean result discarded (as in
the source - the return value is not inspected); then the callback runs iff
the file still exists, with the path added to and finally discarded from
the in-flight set, leaving the state as before. -/
def on_created (h : VideoHandler) (event : CreatedEvent)
    (sizeTrace : List (Option Nat)) (existsAfterWait : Bool) :
    Nat × VideoHandler :=
  if event.is_directory then (0, h)
  else if ¬ h.extensions.contains (strToLower (pySuffix event.src_path)) then (0, h)
  else if h.processing.contains event.src_path then (0, h)
  else
    let _ready := wait_for_file_ready sizeTrace (-1)
    if ¬ existsAfterWait then (0, h)
    else (1, h)

/-- `VideoMetadata` of `src/onemin/metadata.py`. -/
structure VideoMetadata where
  title : String
  description : String
  tags : List String
  category_id : String
  suggested_thumbnail_index : Int
deriving DecidableEq, Repr

/-- One record of the `pending_requests.json` mapping, with exactly the
fields written by `create_approval_request`. -/
structure RequestRecord where
  request_id : String
  video_path : String
  title : String
  description : String
  tags : List String
  category_id : String
  thumbnail_path : String
  created_at : String
  status : String
deriving DecidableEq, Repr

/-- The durable store: a JSON object keyed by request identifier, modelled
as an insertion-ordered association list with unique keys. -/
abbrev Store := List (String × RequestRecord)

/-- Python-dict membership `k in requests`. -/
def storeMem : Store → String → Bool
  | [], _ => false
  | (k', _) :: rest, k => if k' = k then true else storeMem rest k

/-- Python-dict read `requests[k]` (first matching entry). -/
def storeLookup : Store → String → Option RequestRecord
  | [], _ => none
  | (k', v) :: rest, k => if k' = k then some v else storeLookup rest k

/-- Python-dict assignment `requests[k] = v`: replaces the entry in place
when the key is present, appends otherwise. -/
def storeInsert : Store → String → RequestRecord → Store
  | [], k, v => [(k, v)]
  | (k', v') :: rest, k, v =>
      if k' = k then (k, v) :: rest else (k', v') :: storeInsert rest k v

/-- In-place mutation `requests[k]["field"] = ...` of the matching entry. -/
def storeModify : Store → String → (RequestRecord → RequestRecord) → Store
  | [], _, _ => []
  | (k', v) :: rest, k, f =>
      if k' = k then (k', f v) :: storeModify rest k f
      else (k', v) :: storeModify rest k f

/-- The in-memory `ApprovalRequest` dataclass returned by
`create_approval_request`. -/
structure ApprovalRequest where
  request_id : String
  video_path : String
  metadata : VideoMetadata
  thumbnail_path : String
  created_at : String
  status : String
deriving DecidableEq, Repr

/-- The record that `create_approval_request` writes into the mapping: a
field-by-field copy of the metadata (a snapshot, not a live reference),
keyed by the first 8 characters of the generated UUID, status pending. -/
def createdRecord (uuid now video_path : String) (metadata : VideoMetadata)
    (thumbnail_path : String) : RequestRecord :=
  { request_id := uuid.take 8, video_path := video_path,
    title := metadata.title, description := metadata.description,
    tags := metadata.tags, category_id := metadata.category_id,
    thumbnail_path := thumbnail_path, created_at := now,
    status := "pending" }

/-- `create_approval_request`: the identifier is the first 8 characters of
the freshly generated UUID string (`str(uuid.uuid4())[:8]`) - no collision
check against the loaded store - and the record snapshot is assigned into
the mapping under that identifier and the mapping saved. `uuid` and `now`
are the nondeterministic external inputs. -/
def create_approval_request (uuid now : String) (video_path : String)
    (metadata : VideoMetadata) (thumbnail_path : String) (store : Store) :
    ApprovalRequest × Store :=
  let request_id := uuid.take 8
  let request : ApprovalRequest :=
    { request_id := request_id, video_path := video_path,
      metadata := metadata, thumbnail_path := thumbnail_path,
      created_at := now, status := "pending" }
  (request, storeInsert store request_id
    (createdRecord uuid now video_path metadata thumbnail_path))

/-- `approve_request`: load, return `none` without saving when the id is
absent; otherwise set the status in place, save, and return the updated
record. The Boolean reports whether `save_pending_requests` wrote the file. -/
def approve_request (request_id : String) (store : Store) :
    Option RequestRecord × Store × Bool :=
  if storeMem store request_id then
    let store' := storeModify store request_id
      (fun r => { r with status := "approved" })
    (storeLookup store' request_id, store', true)
  else (none, store, false)

/-- `reject_request`: as `approve_request` with status `"rejected"`. -/
def reject_request (request_id : String) (store : Store) :
    Option RequestRecord × Store × Bool :=
  if storeMem store request_id then
    let store' := storeModify store request_id
      (fun r => { r with status := "rejected" })
    (storeLookup store' request_id, store', true)
  else (none, store, false)

/-- `update_request_metadata`: absent id returns `none` without saving;
otherwise each supplied truthy (non-`None`, non-empty) field overwrites the
corresponding record field in place (`if title: ...` etc.), the mapping is
saved, and the updated record returned. -/
def update_request_metadata (request_id : String)
    (title description : Option String) (tags : Option (List String))
    (store : Store) : Option RequestRecord × Store × Bool :=
  if storeMem store request_id then
    let f := fun (r : RequestRecord) =>
      let r1 := if truthyStr title then { r with title := title.getD r.title } else r
      let r2 := if truthyStr description then
          { r1 with description := description.getD r1.description } else r1
      if truthyList tags then { r2 with tags := tags.getD r2.tags } else r2
    let store' := storeModify store request_id f
    (storeLookup store' request_id, store', true)
  else (none, store, false)

/-- `get_request`: plain lookup. -/
def get_request (request_id : String) (store : Store) : Option RequestRecord :=
  storeLookup store request_id

/-- `list_pending`: the records whose status is `"pending"`, in mapping
order. -/
def list_pending (store : Store) : List RequestRecord :=
  (store.map Prod.snd).filter (fun r => r.status = "pending")

/-- `VideoInfo` of `src/minautoyt/analyzer.py` (duration in seconds). -/
structure VideoInfo where
  path : String
  duration : ℚ
  width : Int
  height : Int
  fps : ℚ
  codec : String
  size_mb : ℚ
deriving DecidableEq, Repr

/-- `AnalysisResult` of `src/minautoyt/analyzer.py`; a transcript segment is
(start, end, text). -/
structure AnalysisResult where
  video_info : VideoInfo
  frames : List String
  transcript : String
  transcript_segments : List (ℚ × ℚ × String)
deriving DecidableEq, Repr

/-- The timestamp computation of `extract_frames`: skip the first and last
5 percent of the duration, and space `num_frames` timestamps evenly over the
rest (`interval = (end - start)/(num_frames - 1)` when more than one frame,
else `0`); the i-th timestamp is `start + i * interval`. -/
def frame_timestamps (duration : ℚ) (num_frames : Nat) : List ℚ :=
  let start_time := duration * (5 / 100)
  let end_time := duration * (95 / 100)
  let interval :=
    if 1 < num_frames then (end_time - start_time) / ((num_frames : ℚ) - 1)
    else 0
  (List.range num_frames).map (fun i => start_time + (i : ℚ) * interval)

/-- `extract_frames`, up to the external ffmpeg invocations: raises on
non-positive duration, otherwise produces one frame per computed timestamp. -/
def extract_frames (duration : ℚ) (num_frames : Nat) :
    Except String (List ℚ) :=
  if duration ≤ 0 then Except.error "Invalid video duration"
  else Except.ok (frame_timestamps duration num_frames)

/-- `ThumbnailResult` of `src/onemin/thumbnail.py`. -/
structure ThumbnailResult where
  path : String
  source_frame : String
  style : String
deriving DecidableEq, Repr

/-- `UploadResult` of `src/minautoyt/uploader.py`. -/
structure UploadResult where
  video_id : String
  url : String
  title : String
  privacy : String
deriving DecidableEq, Repr

/-- Successful `UploadResult` built by `upload_video`: remote id, watch URL,
echoed title, and the resolved privacy (`privacy or settings.default_privacy`). -/
def uploadSuccess (metadata : VideoMetadata) (privacy : Option String)
    (default_privacy video_id : String) : UploadResult :=
  { video_id := video_id,
    url := "https://youtube.com/watch?v=" ++ video_id,
    title := metadata.title,
    privacy := orElseStr privacy default_privacy }

/-- `upload_video` of `src/minautoyt/uploader.py`. The chunked resumable
main transfer (credential resolution, insert, next_chunk loop) is the
`Except`-valued input `mainTransferR`, yielding the remote video id on
success; `thumbSetR` is the outcome of the `thumbnails().set().execute()`
attachment call. Returns the number of attachment calls performed together
with the overall outcome. Mirrors the source: a main-transfer failure
propagates with no attachment call; when a thumbnail path is supplied and
the file exists, exactly one attachment call is made with no surrounding
try/except, so its failure propagates as well; otherwise the attachment is
skipped. -/
def upload_video (metadata : VideoMetadata) (privacy : Option String)
    (default_privacy : String) (mainTransferR : Except String String)
    (thumbnail_path : Option String) (thumbnailExists : Bool)
    (thumbSetR : Except String Unit) : Nat × Except String UploadResult :=
  match mainTransferR with
  | Except.error e => (0, Except.error e)
  | Except.ok video_id =>
      let success := uploadSuccess metadata privacy default_privacy video_id
      let attach := match thumbnail_path with
        | some _ => thumbnailExists
        | none => false
      if attach then
        match thumbSetR with
        | Except.error e => (1, Except.error e)
        | Except.ok _ => (1, Except.ok success)
      else (0, Except.ok success)

/-- `ProcessOptions` of `src/minautoyt/pipeline.py`. -/
structure ProcessOptions where
  custom_title : Option String := none
  custom_description : Option String := none
  custom_thumbnail : Option String := none
  custom_tags : Option (List String) := none
  privacy : Option String := none
  skip_approval : Bool := false
  dry_run : Bool := false
deriving DecidableEq, Repr

/-- `ProcessResult` of `src/minautoyt/pipeline.py`. -/
structure ProcessResult where
  video_path : String
  analysis : AnalysisResult
  metadata : VideoMetadata
  thumbnail : ThumbnailResult
  upload_result : Option UploadResult := none
  request_id : Option String := none
  status : String := "pending"
deriving DecidableEq, Repr

/-- The override step of `process_video`: truthy custom fields replace the
generated ones verbatim (`if options.custom_title: ...` etc.). -/
def applyOverrides (options : ProcessOptions) (m : VideoMetadata) :
    VideoMetadata :=
  let m1 := if truthyStr options.custom_title then
      { m with title := options.custom_title.getD m.title } else m
  let m2 := if truthyStr options.custom_description then
      { m1 with description := options.custom_description.getD m1.description }
    else m1
  if truthyList options.custom_tags then
    { m2 with tags := options.custom_tags.getD m2.tags } else m2

/-- The external, nondeterministic inputs of one `process_video` run: the
three adapter outcomes, the upload executor's transfer and attachment
outcomes, whether the thumbnail file exists at upload time, the notifier
outcome, the generated UUID and timestamp, and the configured default
privacy. -/
structure PipelineEnv where
  analysisR : Except String AnalysisResult
  metadataR : Except String VideoMetadata
  thumbnailR : Except String ThumbnailResult
  mainTransferR : Except String String
  thumbSetR : Except String Unit
  thumbnailExists : Bool
  notifierSent : Bool
  gen_uuid : String
  now : String
  default_privacy : String
deriving DecidableEq, Repr

/-- Observable outcome of one `process_video` run: the approval store after
the run, how many times `upload_video` was invoked, and either the returned
`ProcessResult` or the propagated exception. -/
structure PipelineOutcome where
  store : Store
  uploadCalls : Nat
  result : Except String ProcessResult
deriving DecidableEq, Repr

/-- `process_video` of `src/minautoyt/pipeline.py`. Stages run in order with
no try/except in the source, so the first adapter failure propagates with
the store untouched and the uploader never invoked. After the stages:
dry-run returns status `"dry_run"` immediately; skip-approval invokes
`upload_video` once and either propagates its error or returns status
`"uploaded"`; otherwise `create_approval_request` writes the store, the
best-effort notifier outcome is ignored, and status `"pending"` is
returned with the new request id. -/
def process_video (video_path : String) (options : ProcessOptions)
    (env : PipelineEnv) (store : Store) : PipelineOutcome :=
  match env.analysisR with
  | Except.error e => ⟨store, 0, Except.error e⟩
  | Except.ok analysis =>
    match env.metadataR with
    | Except.error e => ⟨store, 0, Except.error e⟩
    | Except.ok generated =>
      let metadata := applyOverrides options generated
      match env.thumbnailR with
      | Except.error e => ⟨store, 0, Except.error e⟩
      | Except.ok thumbnail =>
        let base : ProcessResult :=
          { video_path := video_path, analysis := analysis,
            metadata := metadata, thumbnail := thumbnail }
        if options.dry_run then
          ⟨store, 0, Except.ok { base with status := "dry_run" }⟩
        else if options.skip_approval then
          match (upload_video metadata options.privacy env.default_privacy
              env.mainTransferR (some thumbnail.path) env.thumbnailExists
              env.thumbSetR).2 with
          | Except.error e => ⟨store, 1, Except.error e⟩
          | Except.ok u =>
              let done := { base with upload_result := some u, status := "uploaded" }
              ⟨store, 1, Except.ok done⟩
        else
          let created := create_approval_request env.gen_uuid env.now
            video_path metadata thumbnail.path store
          let done := { base with request_id := some created.1.request_id, status := "pending" }
          ⟨created.2, 0, Except.ok done⟩

/-- Sample metadata for concrete instantiations. -/
def sampleMetadata : VideoMetadata :=
  { title := "T", description := "D", tags := ["t1", "t2"],
    category_id := "22", suggested_thumbnail_index := 0 }

/-- Sample stored record for concrete instantiations. -/
def sampleRecord : RequestRecord :=
  { request_id := "abc12345", video_path := "/v/a.mp4", title := "T",
    description := "D", tags := ["t1", "t2"], category_id := "22",
    thumbnail_path := "/th/a.jpg", created_at := "2024-01-01T00:00:00",
    status := "pending" }

/-- A one-entry store holding `sampleRecord`. -/
def sampleStore : Store := [("abc12345", sampleRecord)]

/-- A full UUID whose first eight characters are `deadbeef`. -/
def uuidA : String := "deadbeef-1111-4aaa-8aaa-000000000001"

/-- A different full UUID with the same first eight characters. -/
def uuidB : String := "deadbeef-2222-4bbb-8bbb-000000000002"

/-- A size trace that never repeats a value: the file grows at every one of
the 150 polls that fit in the 300 s timeout window, so the stability loop
times out. -/
def risingTrace : List (Option Nat) :=
  (List.range 150).map (fun i => some (i + 1))

/-- Sample probed video info. -/
def okInfo : VideoInfo :=
  { path := "/w/a.mp4", duration := 600, width := 1920, height := 1080,
    fps := 30, codec := "h264", size_mb := 100 }

/-- Sample successful analysis outcome. -/
def okAnalysis : AnalysisResult :=
  { video_info := okInfo, frames := ["/f/0.jpg"], transcript := "hi",
    transcript_segments := [] }

/-- Sample successful thumbnail outcome. -/
def okThumb : ThumbnailResult :=
  { path := "/tmp/thumbnail.jpg", source_frame := "/f/0.jpg",
    style := "mrbeast" }

/-- Environment where every stage succeeds but the upload's main transfer
fails. -/
def envUploadFail : PipelineEnv :=
  { analysisR := Except.ok okAnalysis,
    metadataR := Except.ok sampleMetadata,
    thumbnailR := Except.ok okThumb,
    mainTransferR := Except.error "quota exceeded",
    thumbSetR := Except.ok (), thumbnailExists := true,
    notifierSent := false, gen_uuid := uuidA,
    now := "2024-01-01T00:00:00", default_privacy := "unlisted" }

/-- Environment where every stage and the upload succeed. -/
def envAllOk : PipelineEnv :=
  { analysisR := Except.ok okAnalysis,
    metadataR := Except.ok sampleMetadata,
    thumbnailR := Except.ok okThumb,
    mainTransferR := Except.ok "vid123",
    thumbSetR := Except.ok (), thumbnailExists := true,
    notifierSent := true, gen_uuid := uuidA,
    now := "2024-01-01T00:00:00", default_privacy := "unlisted" }

/-- The store after one create with `uuidA` on an empty store. -/
def cexStore1 : Store :=
  (create_approval_request uuidA "2024-01-01T00:00:00" "/v/a.mp4"
    sampleMetadata "/th/a.jpg" []).2

/-- A second create, with the distinct UUID `uuidB`, against `cexStore1`. -/
def cexCreate2 : ApprovalRequest × Store :=
  create_approval_request uuidB "2024-01-01T00:00:01" "/v/b.mp4"
    sampleMetadata "/th/b.jpg" cexStore1

/-- Options with only the dry-run flag set. -/
def dryOpts : ProcessOptions := { dry_run := true }

/-- Options with only the skip-approval flag set. -/
def skipOpts : ProcessOptions := { skip_approval := true }

/-- A failing thumbnail-attachment outcome. -/
def thumbFailR : Except String Unit := Except.error "thumbnail attach failed"

/-- A handler whose in-flight set already holds `/w/a.mp4`. -/
def busyHandler : VideoHandler :=
  { extensions := VIDEO_EXTENSIONS, processing := ["/w/a.mp4"] }

theorem storeMem_of_lookup {s : Store} {k : String} {v : RequestRecord}
    (h : storeLookup s k = some v) : storeMem s k = true := by
  induction s with
  | nil => simp [storeLookup] at h
  | cons p rest ih =>
      obtain ⟨k', v'⟩ := p
      by_cases hk : k' = k
      · simp [storeMem, hk]
      · simp only [storeLookup, if_neg hk] at h
        simp [storeMem, hk, ih h]

theorem storeLookup_modify_self (s : Store) (k : String)
    (f : RequestRecord → RequestRecord) :
    storeLookup (storeModify s k f) k = (storeLookup s k).map f := by
  induction s with
  | nil => rfl
  | cons p rest ih =>
      obtain ⟨k', v⟩ := p
      by_cases hk : k' = k
      · simp [storeModify, storeLookup, hk]
      · simp [storeModify, storeLookup, hk, ih]

theorem storeLookup_modify_ne (s : Store) (k k' : String)
    (f : RequestRecord → RequestRecord) (h : ¬ k' = k) :
    storeLookup (storeModify s k f) k' = storeLookup s k' := by
  induction s with
  | nil => rfl
  | cons p rest ih =>
      obtain ⟨k0, v⟩ := p
      by_cases hk : k0 = k
      · subst hk
        have h2 : ¬ k0 = k' := fun hc => h (hc.symm)
        simp [storeModify, storeLookup, h2, ih]
      · by_cases hk' : k0 = k'
        · subst hk'
          simp [storeModify, storeLookup, hk]
        · simp [storeModify, storeLookup, hk, hk', ih]

theorem storeLookup_insert_self (s : Store) (k : String) (v : RequestRecord) :
    storeLookup (storeInsert s k v) k = some v := by
  induction s with
  | nil => simp [storeInsert, storeLookup]
  | cons p rest ih =>
      obtain ⟨k0, v0⟩ := p
      by_cases hk : k0 = k
      · simp [storeInsert, storeLookup, hk]
      · simp [storeInsert, storeLookup, hk, ih]

theorem storeLookup_insert_ne (s : Store) (k k' : String) (v : RequestRecord)
    (h : ¬ k' = k) :
    storeLookup (storeInsert s k v) k' = storeLookup s k' := by
  have h2 : ¬ k = k' := fun hc => h hc.symm
  induction s with
  | nil => simp [storeInsert, storeLookup, h2]
  | cons p rest ih =>
      obtain ⟨k0, v0⟩ := p
      by_cases hk : k0 = k
      · subst hk
        simp [storeInsert, storeLookup, h2]
      · by_cases hk' : k0 = k'
        · subst hk'
          simp [storeInsert, storeLookup, hk]
        · simp [storeInsert, storeLookup, hk, hk', ih]

theorem storeInsert_length_of_mem (s : Store) (k : String) (v : RequestRecord)
    (h : storeMem s k = true) : (storeInsert s k v).length = s.length := by
  induction s with
  | nil => simp [storeMem] at h
  | cons p rest ih =>
      obtain ⟨k0, v0⟩ := p
      by_cases hk : k0 = k
      · simp [storeInsert, hk]
      · simp only [storeMem, if_neg hk] at h
        simp [storeInsert, hk, ih h]

/-- C4: the transition operations (`approve_request`, `reject_request`) on an
identifier absent from the store return not-found (`none`) and perform no
write: the mapping is returned unchanged and `save_pending_requests` is not
called (save flag `false`), so the backing file stays byte-for-byte intact. -/
theorem transition_absent_id_no_write (request_id : String) (store : Store)
    (h : storeMem store request_id = false) :
    approve_request request_id store = (none, store, false) ∧
    reject_request request_id store = (none, store, false) := by
  constructor <;> simp [approve_request, reject_request, h]

/-- Witness for C4: a concrete identifier absent from a concrete store. -/
theorem transition_absent_id_no_write_witness :
    approve_request "zzzzzzzz" sampleStore = (none, sampleStore, false) ∧
    reject_request "zzzzzzzz" sampleStore = (none, sampleStore, false) :=
  transition_absent_id_no_write "zzzzzzzz" sampleStore (by decide)

/-- C8: for an identifier present in the store, `update_request_metadata`
with only a title supplied replaces exactly the title - description, tags,
category, status, video path, thumbnail path and creation timestamp are
those of the old record - every other store entry is untouched, and a
supplied empty (falsy) title replaces nothing. -/
theorem update_title_only (request_id t : String) (store : Store)
    (r : RequestRecord) (hr : storeLookup store request_id = some r)
    (ht : ¬ t = "") :
    (update_request_metadata request_id (some t) none none store).1
      = some { r with title := t } ∧
    storeLookup
        (update_request_metadata request_id (some t) none none store).2.1
        request_id
      = some { r with title := t } ∧
    (∀ k, ¬ k = request_id →
      storeLookup
          (update_request_metadata request_id (some t) none none store).2.1 k
        = storeLookup store k) ∧
    (update_request_metadata request_id (some "") none none store).1
      = some r := by
  have hmem := storeMem_of_lookup hr
  refine ⟨?_, ?_, ?_, ?_⟩
  · simp [update_request_metadata, hmem, storeLookup_modify_self, hr,
      truthyStr, truthyList, ht]
  · simp [update_request_metadata, hmem, storeLookup_modify_self, hr,
      truthyStr, truthyList, ht]
  · intro k hk
    simp [update_request_metadata, hmem, storeLookup_modify_ne _ _ _ _ hk]
  · simp [update_request_metadata, hmem, storeLookup_modify_self, hr,
      truthyStr, truthyList]

/-- Witness for C8 at a concrete store, identifier and title. -/
theorem update_title_only_witness :
    (update_request_metadata "abc12345" (some "New") none none sampleStore).1
      = some { sampleRecord with title := "New" } ∧
    storeLookup
        (update_request_metadata "abc12345" (some "New") none none sampleStore).2.1
        "abc12345"
      = some { sampleRecord with title := "New" } ∧
    (∀ k, ¬ k = "abc12345" →
      storeLookup
          (update_request_metadata "abc12345" (some "New") none none sampleStore).2.1 k
        = storeLookup sampleStore k) ∧
    (update_request_metadata "abc12345" (some "") none none sampleStore).1
      = some sampleRecord :=
  update_title_only "abc12345" "New" sampleStore sampleRecord rfl (by decide)

/-- C3 counterexample: `create_approval_request` performs no collision check.
Two creates whose distinct generated UUIDs share the first eight characters
return the same request identifier, and the second create overwrites the
first record: the final store has a single entry, holding the second video
path - so identifiers are neither collision-checked nor unique across the
store's history. -/
theorem create_collision_cex :
    ¬ uuidA = uuidB ∧
    (create_approval_request uuidA "2024-01-01T00:00:00" "/v/a.mp4"
        sampleMetadata "/th/a.jpg" []).1.request_id = "deadbeef" ∧
    cexCreate2.1.request_id = "deadbeef" ∧
    cexCreate2.2.length = 1 ∧
    (storeLookup cexCreate2.2 "deadbeef").map RequestRecord.video_path
      = some "/v/b.mp4" := by
  decide

/-- C3 amended: the identifier of a created request is the first eight
characters of the generated UUID, used unconditionally - no collision check
against the existing store - with the record snapshot written under that key
(overwriting any existing record with that key rather than growing the
store) and every other key left untouched; so distinct create calls yield
distinct identifiers exactly when their truncated UUID prefixes differ. -/
theorem create_id_prefix_no_check (uuid now video_path thumbnail_path : String)
    (metadata : VideoMetadata) (store : Store) :
    (create_approval_request uuid now video_path metadata thumbnail_path
        store).1.request_id = uuid.take 8 ∧
    storeLookup
        (create_approval_request uuid now video_path metadata thumbnail_path
          store).2 (uuid.take 8)
      = some (createdRecord uuid now video_path metadata thumbnail_path) ∧
    (∀ k, ¬ k = uuid.take 8 →
      storeLookup
          (create_approval_request uuid now video_path metadata thumbnail_path
            store).2 k
        = storeLookup store k) ∧
    (storeMem store (uuid.take 8) = true →
      (create_approval_request uuid now video_path metadata thumbnail_path
        store).2.length = store.length) := by
  refine ⟨by simp only [create_approval_request], ?_, ?_, ?_⟩
  · simp [create_approval_request, storeLookup_insert_self]
  · intro k hk
    simp [create_approval_request, storeLookup_insert_ne _ _ _ _ hk]
  · intro hmem
    simp [create_approval_request, storeInsert_length_of_mem _ _ _ hmem]

/-- Witness for the amended C3 at concrete values, including the overwrite
case (the key is already present, so the store does not grow). -/
theorem create_id_prefix_no_check_witness :
    cexCreate2.1.request_id = String.take uuidB 8 ∧
    cexCreate2.2.length = cexStore1.length :=
  ⟨(create_id_prefix_no_check uuidB "2024-01-01T00:00:01" "/v/b.mp4"
      "/th/b.jpg" sampleMetadata cexStore1).1,
   (create_id_prefix_no_check uuidB "2024-01-01T00:00:01" "/v/b.mp4"
      "/th/b.jpg" sampleMetadata cexStore1).2.2.2 (by decide)⟩

theorem frame_timestamps_600_10_eval :
    frame_timestamps 600 10
      = [30, 90, 150, 210, 270, 330, 390, 450, 510, 570] := by
  simp only [frame_timestamps]
  norm_num [List.range_succ]

/-- C9: for a 600 second source and ten frames, the analyzer computes
exactly ten timestamps, evenly spaced by 60 s, starting at 30 s (5 percent
of the duration) and ending at 570 s (95 percent), all within that window. -/
theorem extract_frames_600_10 :
    extract_frames 600 10
      = Except.ok [30, 90, 150, 210, 270, 330, 390, 450, 510, 570] ∧
    (frame_timestamps 600 10).length = 10 ∧
    List.Chain' (fun a b => b - a = 60) (frame_timestamps 600 10) ∧
    ∀ t ∈ frame_timestamps 600 10, 30 ≤ t ∧ t ≤ 570 := by
  refine ⟨?_, ?_, ?_, ?_⟩
  · rw [extract_frames, if_neg (by norm_num), frame_timestamps_600_10_eval]
  · rw [frame_timestamps_600_10_eval]
    rfl
  · rw [frame_timestamps_600_10_eval]
    norm_num [List.chain'_cons]
  · rw [frame_timestamps_600_10_eval]
    intro t ht
    simp only [List.mem_cons, List.not_mem_nil, or_false] at ht
    rcases ht with h | h | h | h | h | h | h | h | h | h <;> rw [h] <;> norm_num

/-- Witness for C9: the first computed timestamp lies inside the window. -/
theorem extract_frames_600_10_witness :
    30 ≤ (frame_timestamps 600 10).headD 0 ∧
    (frame_timestamps 600 10).headD 0 ≤ 570 :=
  extract_frames_600_10.2.2.2 ((frame_timestamps 600 10).headD 0)
    (by rw [frame_timestamps_600_10_eval]; simp)

/-- C7: with the dry-run flag set, a run never modifies the approval store
(so no ApprovalRequest is ever created), never invokes the upload executor,
and any `ProcessResult` it returns has status `"dry_run"` - for every input
and every combination of the other options. -/
theorem dry_run_no_approval_no_upload (video_path : String)
    (options : ProcessOptions) (env : PipelineEnv) (store : Store)
    (h : options.dry_run = true) :
    (process_video video_path options env store).store = store ∧
    (process_video video_path options env store).uploadCalls = 0 ∧
    ∀ r, (process_video video_path options env store).result = Except.ok r →
      r.status = "dry_run" := by
  cases ha : env.analysisR with
  | error e => simp [process_video, ha]
  | ok a =>
    cases hm : env.metadataR with
    | error e => simp [process_video, ha, hm]
    | ok m =>
      cases ht : env.thumbnailR with
      | error e => simp [process_video, ha, hm, ht]
      | ok t =>
        refine ⟨by simp [process_video, ha, hm, ht, h],
          by simp [process_video, ha, hm, ht, h], ?_⟩
        intro r hr
        simp [process_video, ha, hm, ht, h] at hr
        rw [← hr]

/-- Witness for C7: a concrete dry run over a fully succeeding environment. -/
theorem dry_run_no_approval_no_upload_witness :
    (process_video "/w/a.mp4" dryOpts envAllOk sampleStore).store = sampleStore ∧
    (process_video "/w/a.mp4" dryOpts envAllOk sampleStore).uploadCalls = 0 ∧
    ∀ r, (process_video "/w/a.mp4" dryOpts envAllOk sampleStore).result
        = Except.ok r → r.status = "dry_run" :=
  dry_run_no_approval_no_upload "/w/a.mp4" dryOpts envAllOk sampleStore rfl

/-- C5 counterexample: with skip-approval set and the upload's main transfer
failing, `process_video` does not return a ProcessRun with status `"error"` -
it returns no `ProcessResult` at all: the error propagates to the caller as
an exception. The store is unchanged, so no ApprovalRequest is created. -/
theorem skip_approval_upload_fail_cex :
    (process_video "/w/a.mp4" skipOpts envUploadFail []).result
      = Except.error "quota exceeded" ∧
    (process_video "/w/a.mp4" skipOpts envUploadFail []).result.isOk = false ∧
    (process_video "/w/a.mp4" skipOpts envUploadFail []).store = [] :=
  ⟨rfl, rfl, rfl⟩

/-- C5 amended: any stage error aborts the run and propagates to the caller
as an error with the store unchanged - the source has no try/except, so no
`ProcessResult` (in particular none with status `"error"`, a status the
source never assigns) is produced on failure. In skip-approval mode a
failing upload means the executor was invoked once, its error propagates,
and no ApprovalRequest is created. -/
theorem stage_error_aborts (video_path : String) (options : ProcessOptions)
    (env : PipelineEnv) (store : Store) :
    (∀ e, env.analysisR = Except.error e →
      process_video video_path options env store
        = ⟨store, 0, Except.error e⟩) ∧
    (∀ a e, env.analysisR = Except.ok a → env.metadataR = Except.error e →
      process_video video_path options env store
        = ⟨store, 0, Except.error e⟩) ∧
    (∀ a m e, env.analysisR = Except.ok a → env.metadataR = Except.ok m →
      env.thumbnailR = Except.error e →
      process_video video_path options env store
        = ⟨store, 0, Except.error e⟩) ∧
    (∀ a m t e, env.analysisR = Except.ok a → env.metadataR = Except.ok m →
      env.thumbnailR = Except.ok t → options.dry_run = false →
      options.skip_approval = true → env.mainTransferR = Except.error e →
      process_video video_path options env store
        = ⟨store, 1, Except.error e⟩) := by
  refine ⟨?_, ?_, ?_, ?_⟩
  · intro e ha
    simp [process_video, ha]
  · intro a e ha hm
    simp [process_video, ha, hm]
  · intro a m e ha hm ht
    simp [process_video, ha, hm, ht]
  · intro a m t e ha hm ht hd hs hu
    simp [process_video, upload_video, ha, hm, ht, hd, hs, hu]

/-- Witness for the amended C5: the concrete failing-upload run. -/
theorem stage_error_aborts_witness :
    process_video "/w/a.mp4" skipOpts envUploadFail []
      = ⟨[], 1, Except.error "quota exceeded"⟩ :=
  (stage_error_aborts "/w/a.mp4" skipOpts envUploadFail []).2.2.2 okAnalysis
    sampleMetadata okThumb "quota exceeded" rfl rfl rfl rfl rfl rfl

/-- C6 counterexample: main transfer succeeded, a thumbnail path is supplied
and the file exists, and the attachment call fails - `upload_video` performs
the one attachment call but then propagates the failure instead of returning
a successful UploadResult: attachment failure is distinguished from success. -/
theorem upload_thumb_fail_cex :
    upload_video sampleMetadata none "unlisted" (Except.ok "vid123")
        (some "/tmp/thumbnail.jpg") true thumbFailR
      = (1, Except.error "thumbnail attach failed") ∧
    (upload_video sampleMetadata none "unlisted" (Except.ok "vid123")
      (some "/tmp/thumbnail.jpg") true thumbFailR).2.isOk = false :=
  ⟨rfl, rfl⟩

/-- C6 amended: after a successful main transfer, if a thumbnail path is
supplied and the file exists then exactly one attachment call is performed;
when that call succeeds the executor returns the successful UploadResult
(whose response body is never inspected), but when it raises, the error
propagates and no UploadResult is returned - indistinguishable from a
main-transfer failure. With no thumbnail supplied, or the file missing, no
attachment call is made. -/
theorem upload_thumb_attach_behavior (metadata : VideoMetadata)
    (privacy : Option String) (default_privacy video_id tp : String)
    (texists : Bool) (tr : Except String Unit) :
    (upload_video metadata privacy default_privacy (Except.ok video_id)
      (some tp) true tr).1 = 1 ∧
    (tr = Except.ok () →
      (upload_video metadata privacy default_privacy (Except.ok video_id)
          (some tp) true tr).2
        = Except.ok (uploadSuccess metadata privacy default_privacy video_id)) ∧
    (∀ e, tr = Except.error e →
      (upload_video metadata privacy default_privacy (Except.ok video_id)
        (some tp) true tr).2 = Except.error e) ∧
    (upload_video metadata privacy default_privacy (Except.ok video_id)
      none texists tr).1 = 0 ∧
    (upload_video metadata privacy default_privacy (Except.ok video_id)
      (some tp) false tr).1 = 0 := by
  refine ⟨?_, ?_, ?_, ?_, ?_⟩
  · cases tr <;> simp [upload_video]
  · intro htr
    simp [upload_video, htr]
  · intro e htr
    simp [upload_video, htr]
  · simp [upload_video]
  · simp [upload_video]

/-- Witness for the amended C6 at concrete inputs, successful attachment. -/
theorem upload_thumb_attach_behavior_witness :
    (upload_video sampleMetadata none "unlisted" (Except.ok "vid123")
      (some "/t.jpg") true (Except.ok ())).1 = 1 ∧
    (upload_video sampleMetadata none "unlisted" (Except.ok "vid123")
        (some "/t.jpg") true (Except.ok ())).2
      = Except.ok (uploadSuccess sampleMetadata none "unlisted" "vid123") :=
  ⟨(upload_thumb_attach_behavior sampleMetadata none "unlisted" "vid123"
      "/t.jpg" true (Except.ok ())).1,
   (upload_thumb_attach_behavior sampleMetadata none "unlisted" "vid123"
      "/t.jpg" true (Except.ok ())).2.1 rfl⟩

/-- C2: a detection event for a path already in the in-flight `_processing`
set is dropped: zero callback invocations and the handler state unchanged. -/
theorem duplicate_event_dropped (h : VideoHandler) (e : CreatedEvent)
    (trace : List (Option Nat)) (ex : Bool)
    (hmem : h.processing.contains e.src_path = true) :
    on_created h e trace ex = (0, h) := by
  unfold on_created
  split
  · rfl
  · split
    · rfl
    · simp [hmem]

/-- Witness for C2: an event for the path the handler is already processing. -/
theorem duplicate_event_dropped_witness :
    on_created busyHandler ⟨"/w/a.mp4", false⟩ [some 5, some 5] true
      = (0, busyHandler) :=
  duplicate_event_dropped busyHandler ⟨"/w/a.mp4", false⟩ [some 5, some 5]
    true (by decide)

/-- C1 counterexample: a video file whose size strictly grows at every one
of the 150 polls in the timeout window never stabilizes - the readiness
check returns false - yet `on_created` still invokes the callback once,
because the source discards the readiness Boolean and only re-checks that
the file exists. -/
theorem watcher_timeout_still_invokes_cex :
    wait_for_file_ready risingTrace (-1) = false ∧
    on_created (mkVideoHandler none) ⟨"/w/clip.mp4", false⟩ risingTrace true
      = (1, mkVideoHandler none) := by
  constructor
  · decide
  · rfl

/-- C1 amended: a file is deemed ready exactly when a poll repeats the
previous size with a non-zero value, but `on_created` ignores the readiness
result: for any event passing the directory, extension and in-flight checks,
the callback is invoked (exactly once, without error) iff the file exists
after the wait loop, regardless of whether the size ever stabilized within
the timeout. -/
theorem on_created_ignores_readiness (h : VideoHandler) (e : CreatedEvent)
    (trace : List (Option Nat)) (ex : Bool)
    (hdir : e.is_directory = false)
    (hext : h.extensions.contains (strToLower (pySuffix e.src_path)) = true)
    (hnew : h.processing.contains e.src_path = false) :
    on_created h e trace ex = (if ex then 1 else 0, h) := by
  have h1 : strToLower (pySuffix e.src_path) ∈ h.extensions := by
    simpa using hext
  have h2 : e.src_path ∉ h.processing := by
    simpa using hnew
  cases ex <;> simp [on_created, hdir, h1, h2]

/-- Witness for the amended C1: the never-stabilizing trace still yields one
callback invocation because the file exists after the wait. -/
theorem on_created_ignores_readiness_witness :
    on_created (mkVideoHandler none) ⟨"/w/c.mp4", false⟩ risingTrace true
      = (1, mkVideoHandler none) := by
  simpa using on_created_ignores_readiness (mkVideoHandler none)
    ⟨"/w/c.mp4", false⟩ risingTrace true rfl (by decide) rfl

/-- C10: the extension filter lowercases the path suffix before matching the
allow-list, so any letter-case variant of an allow-listed extension (such as
".MP4" or ".Mov") passes the filter, while directory events and paths whose
lowercased suffix is not allow-listed produce zero callback invocations. -/
theorem extension_filter_case_insensitive (st : List String) (p : String)
    (trace : List (Option Nat)) (ex : Bool) :
    on_created ⟨VIDEO_EXTENSIONS, st⟩ ⟨p, true⟩ trace ex
      = (0, ⟨VIDEO_EXTENSIONS, st⟩) ∧
    (VIDEO_EXTENSIONS.contains (strToLower (pySuffix p)) = false →
      on_created ⟨VIDEO_EXTENSIONS, st⟩ ⟨p, false⟩ trace ex
        = (0, ⟨VIDEO_EXTENSIONS, st⟩)) ∧
    (VIDEO_EXTENSIONS.contains (strToLower (pySuffix p)) = true →
      st.contains p = false → ex = true →
      on_created ⟨VIDEO_EXTENSIONS, st⟩ ⟨p, false⟩ trace ex
        = (1, ⟨VIDEO_EXTENSIONS, st⟩)) ∧
    pySuffix "/w/clip.MP4" = ".MP4" ∧
    VIDEO_EXTENSIONS.contains (strToLower (pySuffix "/w/clip.MP4")) = true ∧
    VIDEO_EXTENSIONS.contains (strToLower (pySuffix "/w/video.Mov")) = true ∧
    VIDEO_EXTENSIONS.contains (strToLower (pySuffix "/w/notes.txt")) = false := by
  refine ⟨rfl, ?_, ?_, by decide, by decide, by decide, by decide⟩
  · intro hno
    have h1 : strToLower (pySuffix p) ∉ VIDEO_EXTENSIONS := by
      simpa using hno
    simp [on_created, h1]
  · intro hyes hnew hex
    subst hex
    have h1 : strToLower (pySuffix p) ∈ VIDEO_EXTENSIONS := by
      simpa using hyes
    have h2 : p ∉ st := by
      simpa using hnew
    simp [on_created, h1, h2]

/-- Witness for C10: an uppercase `.Mov` file passes the filter and, with a
stable non-empty size and the file present, triggers exactly one callback. -/
theorem extension_filter_case_insensitive_witness :
    on_created ⟨VIDEO_EXTENSIONS, []⟩ ⟨"/w/video.Mov", false⟩
        [some 3, some 3] true
      = (1, ⟨VIDEO_EXTENSIONS, []⟩) :=
  (extension_filter_case_insensitive [] "/w/video.Mov" [some 3, some 3]
    true).2.2.1 (by decide) rfl rfl
